import Mathlib

/-!
# Regent College Hotel PMS — verification of the reservation/inventory core

A shallow embedding of `src/pms/core.py` (the reservation/inventory engine of
the Regents College Hotel PMS) together with proofs of the specified
properties.  The durable SQLite store is modelled as an explicit `Store`
value threaded through the operations; calendar dates are modelled by their
proleptic-Gregorian day numbers (an `Int`), which is faithful to Python's
`datetime.date` ordering and `timedelta` arithmetic; machine-level byte
strings are lists of `Fin 256`.
-/

namespace PMS

/-- Room status: `rooms.status` column, `CHECK (status IN ('ACTIVE','OUT_OF_SERVICE'))`. -/
inductive RoomStatus where
  | ACTIVE
  | OUT_OF_SERVICE
deriving DecidableEq, Repr

/-- Reservation status: `reservations.status` column,
`CHECK (status IN ('BOOKED','CHECKED_IN','CHECKED_OUT','CANCELLED','NO_SHOW'))`. -/
inductive ResStatus where
  | BOOKED
  | CHECKED_IN
  | CHECKED_OUT
  | CANCELLED
  | NO_SHOW
deriving DecidableEq, Repr

/-- An active reservation counts against availability: status in `('BOOKED','CHECKED_IN')`,
the filter of the partial unique index `ux_room_date_active` and of the availability queries. -/
def ResStatus.isActive : ResStatus → Bool
  | .BOOKED => true
  | .CHECKED_IN => true
  | _ => false

/-- The status as the TEXT stored in the `status` column (used by the grid cells). -/
def ResStatus.text : ResStatus → String
  | .BOOKED => "BOOKED"
  | .CHECKED_IN => "CHECKED_IN"
  | .CHECKED_OUT => "CHECKED_OUT"
  | .CANCELLED => "CANCELLED"
  | .NO_SHOW => "NO_SHOW"

/-- User role: `users.role` column, `CHECK (role IN ('SUPERUSER','STAFF'))`. -/
inductive Role where
  | SUPERUSER
  | STAFF
deriving DecidableEq, Repr

/-- A row of the `rooms` table.  `base_rate` (a REAL never read by the core logic)
is omitted; `room_number` is TEXT with a UNIQUE constraint, and `ORDER BY room_number`
is the lexicographic order on that TEXT. -/
structure Room where
  id : Nat
  room_number : String
  status : RoomStatus
deriving DecidableEq, Repr

/-- A row of the `guests` table.  `created_at` timestamps are abstract ticks (`Nat`). -/
structure Guest where
  id : Nat
  first_name : String
  last_name : String
  email : String
  phone : String
  created_at : Nat
deriving DecidableEq, Repr

/-- A row of the `reservations` table.  `stay_date` is stored as ISO TEXT in the
database; here it is the date's day number (`Int`), with the stored TEXT recoverable
as its ISO form — equality of the TEXT column is equality of day numbers. -/
structure Reservation where
  id : Nat
  room_id : Nat
  guest_id : Nat
  stay_date : Int
  status : ResStatus
  created_at : Nat
  updated_at : Nat
deriving DecidableEq, Repr

/-- A row of the `users` table. -/
structure User where
  id : Nat
  username : String
  password_hash : String
  role : Role
deriving DecidableEq, Repr

/-- The resolved principal handed to the api functions (`current_user`). -/
structure Principal where
  id : Nat
  username : String
  role : Role
deriving DecidableEq, Repr

/-- The durable store: the four tables plus the AUTOINCREMENT counters for the
two tables the core inserts into. -/
structure Store where
  users : List User
  rooms : List Room
  guests : List Guest
  reservations : List Reservation
  next_guest_id : Nat
  next_reservation_id : Nat
deriving DecidableEq, Repr

/-- A notification handed to the fake email sender: kind, recipient address,
room number and stay date (the payload `send_reservation_created_email` /
`send_reservation_cancelled_email` interpolate into the message body). -/
inductive Notification where
  | created (to_email : String) (room_number : String) (stay_date : Int)
  | cancelled (to_email : String) (room_number : String) (stay_date : Int)
deriving DecidableEq, Repr

/-- The error taxonomy: the four exception classes of `core.py`
(`Unauthorized`, `Forbidden`, `BadRequest`, `NotFound`) plus `fault` for an
exception none of them covers (an unhandled Python fault such as a
`ValueError` escaping `datetime.date.fromisoformat`). -/
inductive Err where
  | unauthorized (msg : String)
  | forbidden (msg : String)
  | badRequest (msg : String)
  | notFound (msg : String)
  | fault (msg : String)
deriving DecidableEq, Repr

/-- The outcome of one api call: the post-call store (the input store when the
call failed — every failing path rolls back or never writes), the emails sent,
and the returned value or raised error. -/
structure OpOut (α : Type) where
  store : Store
  emails : List Notification
  result : Except Err α
deriving Repr

/-! ## Clock / calendar (`get_today_in_hotel_timezone`, `is_date_within_booking_window`)

`MAX_BOOKING_WINDOW_DAYS = 5` in `core.py`.  "Today" in the hotel time zone is a
parameter of every date-sensitive operation rather than a hidden clock read. -/

def MAX_BOOKING_WINDOW_DAYS : Int := 5

/-- Embeds `is_date_within_booking_window`: `today <= stay_date <= today + (MAX_BOOKING_WINDOW_DAYS - 1)`. -/
def is_date_within_booking_window (today stay_date : Int) : Bool :=
  today ≤ stay_date && stay_date ≤ today + (MAX_BOOKING_WINDOW_DAYS - 1)

/-! ## ISO date parsing (`datetime.date.fromisoformat`)

`datetime.date.fromisoformat` accepts exactly `YYYY-MM-DD` for a real
proleptic-Gregorian calendar date with `1 <= year <= 9999`, raising `ValueError`
otherwise.  A parsed date is converted to its day number. -/

def isLeapYear (y : Nat) : Bool :=
  y % 4 == 0 && (y % 100 != 0 || y % 400 == 0)

def daysInMonth (y m : Nat) : Nat :=
  if m == 2 then (if isLeapYear y then 29 else 28)
  else if m == 4 || m == 6 || m == 9 || m == 11 then 30
  else 31

/-- Day number of a valid civil date (monotone in the date; standard
era-of-400-years computation, counted from 0000-03-01). -/
def toDayNumber (y m d : Nat) : Nat :=
  let ys := if m ≤ 2 then y - 1 else y
  let mp := if m ≤ 2 then m + 9 else m - 3
  ys * 365 + ys / 4 - ys / 100 + ys / 400 + (153 * mp + 2) / 5 + (d - 1)

def digitVal (c : Char) : Nat := c.toNat - 48

/-- Parse `YYYY-MM-DD` into a day number; `none` models the `ValueError` raise. -/
def parseIsoDate (s : String) : Option Int :=
  match s.toList with
  | [y1, y2, y3, y4, h1, m1, m2, h2, d1, d2] =>
    if y1.isDigit && y2.isDigit && y3.isDigit && y4.isDigit &&
       h1 == '-' && m1.isDigit && m2.isDigit && h2 == '-' &&
       d1.isDigit && d2.isDigit then
      let y := 1000 * digitVal y1 + 100 * digitVal y2 + 10 * digitVal y3 + digitVal y4
      let m := 10 * digitVal m1 + digitVal m2
      let d := 10 * digitVal d1 + digitVal d2
      if 1 ≤ y && 1 ≤ m && m ≤ 12 && 1 ≤ d && d ≤ daysInMonth y m then
        some (toDayNumber y m d : Nat)
      else none
    else none
  | _ => none

/-! ## Allocator (`find_free_room_for_date`) -/

/-- Lexicographic order on character lists: SQLite's BINARY collation for TEXT,
the order `ORDER BY room_number` sorts by. -/
def charListLe : List Char → List Char → Bool
  | [], _ => true
  | _ :: _, [] => false
  | a :: as, b :: bs => if a < b then true else if b < a then false else charListLe as bs

/-- The `rooms` relation ordered by `room_number` (lexicographic on the TEXT). -/
def roomLe (a b : Room) : Prop :=
  charListLe a.room_number.data b.room_number.data = true

instance : DecidableRel roomLe := fun a b =>
  inferInstanceAs (Decidable (charListLe a.room_number.data b.room_number.data = true))

/-- The query `SELECT * FROM rooms WHERE status = 'ACTIVE' ORDER BY room_number`. -/
def activeRoomsSorted (s : Store) : List Room :=
  ((s.rooms.filter (fun r => r.status == RoomStatus.ACTIVE)).insertionSort roomLe)

/-- The query `SELECT room_id FROM reservations WHERE stay_date = ? AND status IN ('BOOKED','CHECKED_IN')`:
whether `room_id` is in the busy set for `stay_date`. -/
def roomBusy (s : Store) (stay_date : Int) (room_id : Nat) : Bool :=
  s.reservations.any (fun r =>
    r.room_id == room_id && r.stay_date == stay_date && r.status.isActive)

/-- Embeds `find_free_room_for_date`: first active room (ascending `room_number`) whose id
is not in the reserved set for the date, else `None`. -/
def find_free_room_for_date (s : Store) (stay_date : Int) : Option Room :=
  (activeRoomsSorted s).find? (fun room => !(roomBusy s stay_date room.id))

/-! ## Password hashing (`hash_password`, `verify_password`)

Byte strings are `List (Fin 256)`; a plaintext password is represented by its
UTF-8 byte sequence (`plain_password.encode("utf-8")`, an injective encoding).
`hashlib.pbkdf2_hmac("sha256", password, salt, 100_000)` is an external
library primitive, so it enters the model as an explicit function parameter
`pbkdf2 : password → salt → iterations → key`; the salt drawn by
`os.urandom(32)` likewise enters as a parameter of length 32. -/

def Pbkdf2 : Type := List (Fin 256) → List (Fin 256) → Nat → List (Fin 256)

/-- One hex digit of `binascii.hexlify` (lowercase). -/
def hexDigitChar (n : Nat) : Char :=
  if n < 10 then Char.ofNat (48 + n) else Char.ofNat (87 + n)

/-- Embeds `binascii.hexlify(..).decode("utf-8")`: two lowercase hex chars per byte. -/
def hexlify (bs : List (Fin 256)) : String :=
  ⟨bs.flatMap (fun b => [hexDigitChar (b.val / 16), hexDigitChar (b.val % 16)])⟩

/-- Value of one hex char, `none` for a non-hex char. -/
def hexVal (c : Char) : Option Nat :=
  if '0' ≤ c && c ≤ '9' then some (c.toNat - 48)
  else if 'a' ≤ c && c ≤ 'f' then some (c.toNat - 87)
  else none

def unhexlifyChars : List Char → Option (List (Fin 256))
  | [] => some []
  | c1 :: c2 :: rest => do
    let h ← hexVal c1
    let l ← hexVal c2
    if hb : h * 16 + l < 256 then
      let tail ← unhexlifyChars rest
      pure (⟨h * 16 + l, hb⟩ :: tail)
    else none
  | [_] => none

/-- Embeds `binascii.unhexlify`; `none` models the `binascii.Error` raise. -/
def unhexlify (s : String) : Option (List (Fin 256)) :=
  unhexlifyChars s.toList

/-- Embeds `hash_password`: hex of `salt + pbkdf2_hmac("sha256", password, salt, 100_000)`. -/
def hash_password (pbkdf2 : Pbkdf2) (salt password : List (Fin 256)) : String :=
  hexlify (salt ++ pbkdf2 password salt 100000)

/-- Embeds `verify_password`: unhexlify the stored hash, split at byte 32 into salt and
stored key, recompute the key and compare.  `none` models the raise on a stored
value that is not valid hex. -/
def verify_password (pbkdf2 : Pbkdf2) (password : List (Fin 256)) (stored_hash : String) :
    Option Bool :=
  match unhexlify stored_hash with
  | none => none
  | some stored_hash_bytes =>
    let salt := stored_hash_bytes.take 32
    let stored_key := stored_hash_bytes.drop 32
    let key := pbkdf2 password salt 100000
    some (key == stored_key)

/-! ## Authentication (`authenticate_user`, `api_login`) and the role gate

`get_db_connection` opens a pymysql connection when `DB_HOST` is set and a
sqlite3 connection otherwise.  Every query in `core.py` uses sqlite3's `?`
(qmark) placeholders and `datetime('now')` — valid only on the sqlite3
connection, so the rest of this model fixes that engine — with one exception:
`authenticate_user` executes `"SELECT * FROM users WHERE username = %s"`
(core.py line 204), the file's only `%s` (format-style, pymysql) placeholder.
sqlite3 rejects a `%s` placeholder with `sqlite3.OperationalError` before any
row is read, so on the default SQLite engine every login attempt raises that
error; only on the pymysql engine does the lookup run.  The login functions
therefore carry the engine explicitly. -/

/-- The two engines `get_db_connection` can return: sqlite3 when `DB_HOST` is
unset (the default), pymysql against MySQL/RDS when it is set. -/
inductive DbEngine where
  | sqlite
  | mysql
deriving DecidableEq, Repr

/-- Placeholder style of a parameterized SQL text: `qmark` is sqlite3's `?`,
`format` is pymysql's `%s`.  A driver executing a query written in the other
style raises an `OperationalError` before reading any row. -/
inductive ParamStyle where
  | qmark
  | format
deriving DecidableEq, Repr

/-- The placeholder style each engine's driver accepts. -/
def DbEngine.paramStyle : DbEngine → ParamStyle
  | .sqlite => .qmark
  | .mysql => .format

/-- The placeholder style of `authenticate_user`'s query text
`"SELECT * FROM users WHERE username = %s"` (core.py line 204). -/
def authQueryStyle : ParamStyle := .format

/-- Embeds `authenticate_user`: execute
`"SELECT * FROM users WHERE username = %s"` — on an engine whose driver does not
accept the `%s` placeholder (sqlite3, the default), `cursor.execute` raises
`sqlite3.OperationalError` before any row is read; otherwise `None` on a missing
user or a failed password check, the user row on success.  An `Except.error`
models a raise (the placeholder error, or `binascii.Error` out of
`verify_password` on a corrupt stored hash). -/
def authenticate_user (engine : DbEngine) (pbkdf2 : Pbkdf2) (users : List User)
    (username : String) (password : List (Fin 256)) : Except String (Option User) :=
  if engine.paramStyle ≠ authQueryStyle then
    .error "sqlite3.OperationalError: near \"%\": syntax error"
  else
    match users.find? (fun u => u.username == username) with
    | none => .ok none
    | some user =>
      match verify_password pbkdf2 password user.password_hash with
      | none => .error "binascii.Error"
      | some false => .ok none
      | some true => .ok (some user)

/-- The return value of `api_login`. -/
structure LoginResp where
  token : String
  role : Role
  username : String
deriving DecidableEq, Repr

/-- Embeds `api_login`: raise `Unauthorized("Invalid credentials")` when
`authenticate_user` returns `None`; an exception raised inside
`authenticate_user` propagates (`api_login` has no handler). -/
def api_login (engine : DbEngine) (pbkdf2 : Pbkdf2) (users : List User)
    (username : String) (password : List (Fin 256)) : Except Err LoginResp :=
  match authenticate_user engine pbkdf2 users username password with
  | .error e => .error (.fault e)
  | .ok none => .error (.unauthorized "Invalid credentials")
  | .ok (some user) =>
    .ok { token := "simulated_token", role := user.role, username := user.username }

/-- Embeds `require_role`: `Unauthorized` when `current_user is None`, `Forbidden` when the
role is not allowed. -/
def require_role (current_user : Option Principal) (allowed_roles : List Role) :
    Except Err Unit :=
  match current_user with
  | none => .error (.unauthorized "Unauthorized")
  | some u => if allowed_roles.contains u.role then .ok () else .error (.forbidden "Forbidden")

/-! ## Availability grid (`build_availability_grid`, `api_grid`) -/

/-- The `status_map` dict of `build_availability_grid`: the active reservations
whose `stay_date` lies `BETWEEN` the window's min and max date, folded into an
association list keyed by `(room_id, stay_date)`.  New entries are consed at the
head, so a head-first lookup sees the latest insertion — Python dict semantics. -/
def statusMap (s : Store) (today : Int) : List ((Nat × Int) × String) :=
  (s.reservations.filter (fun r =>
      today ≤ r.stay_date && r.stay_date ≤ today + (MAX_BOOKING_WINDOW_DAYS - 1) &&
      r.status.isActive)).foldl
    (fun m r => ((r.room_id, r.stay_date), r.status.text) :: m) []

/-- The lookup `status_map.get(key, "FREE")`. -/
def statusMapGet (m : List ((Nat × Int) × String)) (key : Nat × Int) : String :=
  match m.find? (fun kv => kv.1 == key) with
  | some kv => kv.2
  | none => "FREE"

/-- Embeds `build_availability_grid`: the window's dates ascending, the active rooms by
`room_number`, and per room the row of statuses over the dates. -/
def build_availability_grid (s : Store) (today : Int) :
    List Room × List Int × List (List String) :=
  let dates_list := (List.range MAX_BOOKING_WINDOW_DAYS.toNat).map (fun o => today + o)
  let rooms := activeRoomsSorted s
  let m := statusMap s today
  let grid := rooms.map (fun room => dates_list.map (fun date => statusMapGet m (room.id, date)))
  (rooms, dates_list, grid)

/-! ## Reservation creation (`api_guest_reservations`)

`api_guest_reservations` reads the store twice with respect to the uniqueness
constraint: `find_free_room_for_date` reads at allocation time, and the
`INSERT INTO reservations` re-checks the partial unique index
`ux_room_date_active` at commit time.  Under concurrency these two reads may see
different stores, so the embedding takes both: `sRead` is the snapshot the
allocator saw and `sCommit` the store the transaction commits against.  The
sequential call is the diagonal `sRead = sCommit`. -/

/-- The return value of `api_guest_reservations`. -/
structure CreateResp where
  reservation_id : Nat
  room_number : String
  stay_date : Int
  status : String
deriving DecidableEq, Repr

/-- Whether an active reservation for `(room_id, stay_date)` exists: the predicate
of the partial unique index `ux_room_date_active` (`create_tables`, the
`WHERE status IN ('BOOKED','CHECKED_IN')` filter). -/
def hasActiveRes (s : Store) (room_id : Nat) (stay_date : Int) : Bool :=
  s.reservations.any (fun r =>
    r.room_id == room_id && r.stay_date == stay_date && r.status.isActive)

/-- Embeds `api_guest_reservations` with the allocation read against `sRead` and the
transaction (guest insert, reservation insert with the unique-index re-check,
commit or rollback) against `sCommit`.  A violated unique index raises
`sqlite3.IntegrityError`, which is caught, the transaction rolled back (the
returned store is `sCommit` unchanged) and re-raised as
`BadRequest("No rooms available on this date")`. -/
def api_guest_reservations_racy (current_user : Option Principal)
    (first_name last_name email phone stay_date_str : String)
    (today : Int) (now : Nat) (sRead sCommit : Store) : OpOut CreateResp :=
  match require_role current_user [Role.STAFF, Role.SUPERUSER] with
  | .error e => ⟨sCommit, [], .error e⟩
  | .ok _ =>
    match parseIsoDate stay_date_str with
    | none => ⟨sCommit, [], .error (.fault "ValueError: invalid isoformat string")⟩
    | some stay_date =>
      if !is_date_within_booking_window today stay_date then
        ⟨sCommit, [], .error (.badRequest "Date must be within next 5 days")⟩
      else
        match find_free_room_for_date sRead stay_date with
        | none => ⟨sCommit, [], .error (.badRequest "No rooms available on this date")⟩
        | some free_room =>
          let guest_id := sCommit.next_guest_id
          let guest : Guest := ⟨guest_id, first_name, last_name, email, phone, now⟩
          let s1 : Store := { sCommit with
            guests := sCommit.guests ++ [guest],
            next_guest_id := guest_id + 1 }
          if hasActiveRes s1 free_room.id stay_date then
            ⟨sCommit, [], .error (.badRequest "No rooms available on this date")⟩
          else
            let reservation_id := s1.next_reservation_id
            let res : Reservation :=
              ⟨reservation_id, free_room.id, guest_id, stay_date, .BOOKED, now, now⟩
            let s2 : Store := { s1 with
              reservations := s1.reservations ++ [res],
              next_reservation_id := reservation_id + 1 }
            ⟨s2, [.created email free_room.room_number stay_date],
              .ok ⟨reservation_id, free_room.room_number, stay_date, "BOOKED"⟩⟩

/-- The sequential `api_guest_reservations`: allocation and commit see the same store. -/
def api_guest_reservations (current_user : Option Principal)
    (first_name last_name email phone stay_date_str : String)
    (today : Int) (now : Nat) (s : Store) : OpOut CreateResp :=
  api_guest_reservations_racy current_user first_name last_name email phone stay_date_str
    today now s s

/-! ## Cancellation (`load_reservation_with_relations`, `api_cancel`) -/

/-- The loaded reservation row together with the joined guest and room columns. -/
structure LoadedRes where
  reservation : Reservation
  guest_email : String
  room_number : String
deriving DecidableEq, Repr

/-- Embeds `load_reservation_with_relations`: the reservation row `JOIN guests JOIN rooms`;
an unknown id — or a dangling guest/room reference, which leaves the join empty —
raises `NotFound("Reservation not found")`. -/
def load_reservation_with_relations (s : Store) (res_id : Nat) : Except Err LoadedRes :=
  match s.reservations.find? (fun r => r.id == res_id) with
  | none => .error (.notFound "Reservation not found")
  | some r =>
    match s.guests.find? (fun g => g.id == r.guest_id),
          s.rooms.find? (fun rm => rm.id == r.room_id) with
    | some g, some rm => .ok ⟨r, g.email, rm.room_number⟩
    | _, _ => .error (.notFound "Reservation not found")

/-- The update `UPDATE reservations SET status = ?, updated_at = ? WHERE id = ?`. -/
def updateResStatus (s : Store) (res_id : Nat) (st : ResStatus) (now : Nat) : Store :=
  { s with reservations := s.reservations.map (fun r =>
      if r.id == res_id then { r with status := st, updated_at := now } else r) }

/-- The return value of `api_cancel`. -/
structure CancelResp where
  message : String
  status : String
deriving DecidableEq, Repr

/-- Embeds `api_cancel`: role gate, load with relations, guard that the status is still
active, update to `CANCELLED`, commit, send the cancellation email. -/
def api_cancel (current_user : Option Principal) (res_id : Nat) (now : Nat)
    (s : Store) : OpOut CancelResp :=
  match require_role current_user [Role.STAFF, Role.SUPERUSER] with
  | .error e => ⟨s, [], .error e⟩
  | .ok _ =>
    match load_reservation_with_relations s res_id with
    | .error e => ⟨s, [], .error e⟩
    | .ok loaded =>
      if !loaded.reservation.status.isActive then
        ⟨s, [], .error (.badRequest "Only active reservations can be cancelled")⟩
      else
        ⟨updateResStatus s res_id .CANCELLED now,
          [.cancelled loaded.guest_email loaded.room_number loaded.reservation.stay_date],
          .ok ⟨"Cancelled", "CANCELLED"⟩⟩

/-! ## Check-in / check-out

Modelled from the spec: `api_check_in` and `api_check_out` are imported by
`src/main.py` from `pms.core` but are absent from `src/pms/core.py`; §4.3 of the
spec fixes them as the analogous load–guard–transition–commit pattern of the
state table (`BOOKED --check-in--> CHECKED_IN`, `CHECKED_IN --check-out-->
CHECKED_OUT`, any other source state rejected as an invalid transition), with
no notification. -/

/-- Modelled from the spec: `api_check_in` (absent from `src/pms/core.py`) — load the
reservation, guard `status == BOOKED`, transition to `CHECKED_IN`, commit. -/
def api_check_in (current_user : Option Principal) (res_id : Nat) (now : Nat)
    (s : Store) : OpOut CancelResp :=
  match require_role current_user [Role.STAFF, Role.SUPERUSER] with
  | .error e => ⟨s, [], .error e⟩
  | .ok _ =>
    match load_reservation_with_relations s res_id with
    | .error e => ⟨s, [], .error e⟩
    | .ok loaded =>
      if loaded.reservation.status ≠ ResStatus.BOOKED then
        ⟨s, [], .error (.badRequest "Reservation not in a valid state for this operation")⟩
      else
        ⟨updateResStatus s res_id .CHECKED_IN now, [], .ok ⟨"Checked in", "CHECKED_IN"⟩⟩

/-- Modelled from the spec: `api_check_out` (absent from `src/pms/core.py`) — load the
reservation, guard `status == CHECKED_IN`, transition to `CHECKED_OUT`, commit. -/
def api_check_out (current_user : Option Principal) (res_id : Nat) (now : Nat)
    (s : Store) : OpOut CancelResp :=
  match require_role current_user [Role.STAFF, Role.SUPERUSER] with
  | .error e => ⟨s, [], .error e⟩
  | .ok _ =>
    match load_reservation_with_relations s res_id with
    | .error e => ⟨s, [], .error e⟩
    | .ok loaded =>
      if loaded.reservation.status ≠ ResStatus.CHECKED_IN then
        ⟨s, [], .error (.badRequest "Reservation not in a valid state for this operation")⟩
      else
        ⟨updateResStatus s res_id .CHECKED_OUT now, [], .ok ⟨"Checked out", "CHECKED_OUT"⟩⟩

/-! ## Operation sequences and reachable states -/

/-- One core lifecycle call, with its caller and its clock readings. -/
inductive Op where
  | create (current_user : Option Principal)
      (first_name last_name email phone stay_date_str : String) (today : Int) (now : Nat)
  | cancel (current_user : Option Principal) (res_id : Nat) (now : Nat)
  | checkin (current_user : Option Principal) (res_id : Nat) (now : Nat)
  | checkout (current_user : Option Principal) (res_id : Nat) (now : Nat)

/-- The store after one call (failures leave the store unchanged). -/
def step (s : Store) : Op → Store
  | .create cu f l e p ds today now =>
    (api_guest_reservations cu f l e p ds today now s).store
  | .cancel cu res_id now => (api_cancel cu res_id now s).store
  | .checkin cu res_id now => (api_check_in cu res_id now s).store
  | .checkout cu res_id now => (api_check_out cu res_id now s).store

/-- The store after a sequence of calls. -/
def run (s : Store) (ops : List Op) : Store :=
  ops.foldl step s

/-- The store as `init_db` leaves it on a fresh database: the seeded superuser
(`init_superuser_and_rooms`), rooms `101`–`105` ACTIVE, no guests, no
reservations.  The seeded password hash is some fixed valid credential string;
its value plays no role in the reservation core. -/
def initStore : Store :=
  { users := [⟨1, "superuser", hash_password (fun p _ _ => p) (List.replicate 32 0)
      [112, 97, 115, 115, 119, 111, 114, 100], Role.SUPERUSER⟩]
    rooms := [⟨1, "101", .ACTIVE⟩, ⟨2, "102", .ACTIVE⟩, ⟨3, "103", .ACTIVE⟩,
      ⟨4, "104", .ACTIVE⟩, ⟨5, "105", .ACTIVE⟩]
    guests := []
    reservations := []
    next_guest_id := 1
    next_reservation_id := 1 }

/-- Two reservations do not double-book: if both are active they differ in room
or date. -/
def distinctActiveKey (r1 r2 : Reservation) : Prop :=
  r1.status.isActive = true → r2.status.isActive = true →
    ¬(r1.room_id = r2.room_id ∧ r1.stay_date = r2.stay_date)

/-- The core safety property: no two reservations with status in
`{BOOKED, CHECKED_IN}` share a `(room_id, stay_date)` pair. -/
def noDoubleBooking (s : Store) : Prop :=
  s.reservations.Pairwise distinctActiveKey

/-- The inductive store invariant: no double booking, pairwise-distinct
reservation ids, and every reservation id below the AUTOINCREMENT counter. -/
def StoreInv (s : Store) : Prop :=
  noDoubleBooking s ∧
  s.reservations.Pairwise (fun r1 r2 => r1.id ≠ r2.id) ∧
  ∀ r ∈ s.reservations, r.id < s.next_reservation_id

/-- Day number of 2025-10-12, a fixed concrete "today" for closed scenarios. -/
def day20251012 : Int := 739841

/-- The grid-consistency scenario store: rooms `101` and `102` ACTIVE, one BOOKED
reservation for room `101` on the scenario's "today". -/
def gridScenarioStore : Store :=
  { users := []
    rooms := [⟨1, "101", .ACTIVE⟩, ⟨2, "102", .ACTIVE⟩]
    guests := [⟨1, "John", "Doe", "john@example.com", "1234567890", 0⟩]
    reservations := [⟨1, 1, 1, day20251012, .BOOKED, 0, 0⟩]
    next_guest_id := 2
    next_reservation_id := 2 }

/-- A staff principal for concrete scenarios. -/
def staffUser : Principal := ⟨2, "staff1", Role.STAFF⟩

/-- A lifecycle scenario store: three rooms, one guest, and a BOOKED, a
CHECKED_OUT and a CHECKED_IN reservation. -/
def lifecycleScenarioStore : Store :=
  { users := []
    rooms := [⟨1, "101", .ACTIVE⟩, ⟨2, "102", .ACTIVE⟩, ⟨3, "103", .ACTIVE⟩]
    guests := [⟨1, "John", "Doe", "john@example.com", "1234567890", 0⟩]
    reservations := [⟨1, 1, 1, day20251012, .BOOKED, 0, 0⟩,
      ⟨2, 2, 1, day20251012, .CHECKED_OUT, 0, 0⟩,
      ⟨3, 3, 1, day20251012, .CHECKED_IN, 0, 0⟩]
    next_guest_id := 2
    next_reservation_id := 4 }

/-! # Theorems -/

/-! ## Password hashing: hex round trip -/

lemma hexVal_hexDigitChar {n : Nat} (h : n < 16) : hexVal (hexDigitChar n) = some n := by
  interval_cases n <;> rfl

lemma unhexlifyChars_hexlify (bs : List (Fin 256)) :
    unhexlifyChars (bs.flatMap
      (fun b => [hexDigitChar (b.val / 16), hexDigitChar (b.val % 16)])) = some bs := by
  induction bs with
  | nil => rfl
  | cons b bs ih =>
    have hlt := b.isLt
    have h1 : b.val / 16 < 16 := by omega
    have h2 : b.val % 16 < 16 := by omega
    have hb : b.val / 16 * 16 + b.val % 16 < 256 := by omega
    have hfin : (⟨b.val / 16 * 16 + b.val % 16, hb⟩ : Fin 256) = b := by
      apply Fin.ext
      simp only []
      omega
    simp only [List.flatMap_cons, List.cons_append, List.nil_append, unhexlifyChars,
      hexVal_hexDigitChar h1, hexVal_hexDigitChar h2, Option.pure_def, Option.bind_eq_bind,
      Option.some_bind, dif_pos hb, hfin]
    have hrest : ([] : List Char).append
        ((List.map (fun b : Fin 256 => [hexDigitChar (b.val / 16), hexDigitChar (b.val % 16)])
          bs).flatten) =
        bs.flatMap (fun b => [hexDigitChar (b.val / 16), hexDigitChar (b.val % 16)]) := rfl
    rw [hrest, ih]
    rfl

lemma unhexlify_hexlify (bs : List (Fin 256)) : unhexlify (hexlify bs) = some bs := by
  unfold unhexlify hexlify
  simpa using unhexlifyChars_hexlify bs

/-- C9: for every plaintext password (as its UTF-8 bytes) and every 32-byte salt,
`hash_password` stores the hex encoding of `salt ‖ PBKDF2-HMAC-SHA256(p, salt, 100000)`,
`verify_password` accepts the original password against that credential, and rejects
any password whose derived key under the same salt differs. -/
theorem password_hash_verify_roundtrip (pbkdf2 : Pbkdf2) (salt password : List (Fin 256))
    (hsalt : salt.length = 32) :
    hash_password pbkdf2 salt password = hexlify (salt ++ pbkdf2 password salt 100000) ∧
    verify_password pbkdf2 password (hash_password pbkdf2 salt password) = some true ∧
    ∀ other : List (Fin 256), pbkdf2 other salt 100000 ≠ pbkdf2 password salt 100000 →
      verify_password pbkdf2 other (hash_password pbkdf2 salt password) = some false := by
  have ht : (salt ++ pbkdf2 password salt 100000).take 32 = salt := by
    rw [← hsalt]; exact List.take_left _ _
  have hd : (salt ++ pbkdf2 password salt 100000).drop 32 = pbkdf2 password salt 100000 := by
    rw [← hsalt]; exact List.drop_left _ _
  refine ⟨rfl, ?_, ?_⟩
  · unfold verify_password hash_password
    simp only [unhexlify_hexlify, ht, hd, beq_self_eq_true]
  · intro other hne
    unfold verify_password hash_password
    simp only [unhexlify_hexlify, ht, hd, Option.some.injEq, beq_eq_false_iff_ne, ne_eq]
    exact hne

/-- Witness for C9 at a concrete key-derivation function, salt and password. -/
theorem password_hash_verify_roundtrip_witness :
    (List.replicate 32 (0 : Fin 256)).length = 32 ∧
    verify_password (fun p _ _ => p) [1]
      (hash_password (fun p _ _ => p) (List.replicate 32 (0 : Fin 256)) [1]) = some true ∧
    verify_password (fun p _ _ => p) [2]
      (hash_password (fun p _ _ => p) (List.replicate 32 (0 : Fin 256)) [1]) = some false := by
  have h := password_hash_verify_roundtrip (fun p _ _ => p)
    (List.replicate 32 (0 : Fin 256)) [1] (by simp)
  exact ⟨by simp, h.2.1, h.2.2 [2] (by decide)⟩

/-! ## Login failures (code bug: the `%s` placeholder on the sqlite3 connection) -/

/-- C10, evaluating the code at the failing configuration: on the default SQLite
engine, every `api_login` call — unknown username, wrong password, or even the
seeded superuser's correct credentials — raises the identical
`sqlite3.OperationalError` fault, because `authenticate_user`'s query uses the
`%s` placeholder that sqlite3 rejects; `Unauthorized("Invalid credentials")` is
never produced there.  On the pymysql engine, where the query does execute, an
unknown username and a wrong password do both yield the identical
`Unauthorized("Invalid credentials")` — the claim describes the comparison logic
that the placeholder slip prevents from running in the default mode. -/
theorem login_sqlite_paramstyle_fault :
    (∀ (pbkdf2 : Pbkdf2) (users : List User) (username : String)
        (password : List (Fin 256)),
      api_login DbEngine.sqlite pbkdf2 users username password =
        .error (.fault "sqlite3.OperationalError: near \"%\": syntax error")) ∧
    api_login DbEngine.sqlite (fun p _ _ => p) initStore.users "superuser"
      [112, 97, 115, 115, 119, 111, 114, 100] =
      .error (.fault "sqlite3.OperationalError: near \"%\": syntax error") ∧
    api_login DbEngine.mysql (fun p _ _ => p)
      [⟨1, "alice", hash_password (fun p _ _ => p) (List.replicate 32 (0 : Fin 256)) [1],
        Role.STAFF⟩] "bob" [1] = .error (.unauthorized "Invalid credentials") ∧
    api_login DbEngine.mysql (fun p _ _ => p)
      [⟨1, "alice", hash_password (fun p _ _ => p) (List.replicate 32 (0 : Fin 256)) [1],
        Role.STAFF⟩] "alice" [2] = .error (.unauthorized "Invalid credentials") := by
  refine ⟨?_, rfl, rfl, rfl⟩
  intro pbkdf2 users username password
  rfl

/-! ## Booking window boundaries -/

/-- C3: the booking window has inclusive bounds `[today, today + 4]` with `W = 5`:
`today − 1` and `today + 5` fail the window check and `createReservation` rejects
them with the Validation error, while `today` and `today + 4` pass the check. -/
theorem booking_window_boundaries (today : Int) :
    (is_date_within_booking_window today (today - 1) = false ∧
     is_date_within_booking_window today (today + 5) = false ∧
     is_date_within_booking_window today today = true ∧
     is_date_within_booking_window today (today + 4) = true) ∧
    ∀ (cu : Option Principal) (f l e p ds : String) (now : Nat) (s : Store),
      require_role cu [Role.STAFF, Role.SUPERUSER] = .ok () →
      (parseIsoDate ds = some (today - 1) ∨ parseIsoDate ds = some (today + 5)) →
      (api_guest_reservations cu f l e p ds today now s).result =
        .error (.badRequest "Date must be within next 5 days") := by
  have hwin : is_date_within_booking_window today (today - 1) = false ∧
      is_date_within_booking_window today (today + 5) = false ∧
      is_date_within_booking_window today today = true ∧
      is_date_within_booking_window today (today + 4) = true := by
    refine ⟨?_, ?_, ?_, ?_⟩ <;>
      simp only [is_date_within_booking_window, MAX_BOOKING_WINDOW_DAYS, Bool.and_eq_false_iff,
        Bool.and_eq_true, decide_eq_false_iff_not, decide_eq_true_eq, not_le] <;> omega
  refine ⟨hwin, ?_⟩
  intro cu f l e p ds now s hrole hparse
  rcases hparse with hp | hp
  · simp [api_guest_reservations, api_guest_reservations_racy, hrole, hp, hwin.1]
  · simp [api_guest_reservations, api_guest_reservations_racy, hrole, hp, hwin.2.1]

/-- Witness for C3 at a concrete caller, date string and store. -/
theorem booking_window_boundaries_witness :
    (api_guest_reservations (some staffUser) "John" "Doe" "john@example.com" "1234567890"
      "2025-10-12" (day20251012 + 1) 0 initStore).result =
      .error (.badRequest "Date must be within next 5 days") := by
  exact (booking_window_boundaries (day20251012 + 1)).2 (some staffUser)
    "John" "Doe" "john@example.com" "1234567890" "2025-10-12" 0 initStore
    rfl (Or.inl (by decide))

/-! ## Allocator correctness -/

lemma charListLe_refl : ∀ as : List Char, charListLe as as = true := by
  intro as
  induction as with
  | nil => rfl
  | cons a as ih => simp [charListLe, lt_irrefl, ih]

lemma charListLe_total : ∀ as bs : List Char, charListLe as bs = true ∨ charListLe bs as = true := by
  intro as
  induction as with
  | nil => intro bs; left; rfl
  | cons a as ih =>
    intro bs
    cases bs with
    | nil => right; rfl
    | cons b bs =>
      by_cases hab : a < b
      · left; simp [charListLe, hab]
      · by_cases hba : b < a
        · right; simp [charListLe, hba]
        · rcases ih bs with h | h
          · left; simp [charListLe, hab, hba, h]
          · right; simp [charListLe, hab, hba, h]

lemma charListLe_trans : ∀ as bs cs : List Char,
    charListLe as bs = true → charListLe bs cs = true → charListLe as cs = true := by
  intro as
  induction as with
  | nil => intro bs cs _ _; rfl
  | cons a as ih =>
    intro bs cs h1 h2
    cases bs with
    | nil => simp [charListLe] at h1
    | cons b bs =>
      cases cs with
      | nil => simp [charListLe] at h2
      | cons c cs =>
        by_cases hab : a < b
        · by_cases hbc : b < c
          · simp [charListLe, lt_trans hab hbc]
          · by_cases hcb : c < b
            · simp [charListLe, hbc, hcb] at h2
            · have hbceq : b = c := le_antisymm (not_lt.mp hcb) (not_lt.mp hbc)
              subst hbceq
              simp [charListLe, hab]
        · by_cases hba : b < a
          · simp [charListLe, hab, hba] at h1
          · have habeq : a = b := le_antisymm (not_lt.mp hba) (not_lt.mp hab)
            subst habeq
            simp only [charListLe, if_neg hab, if_neg hba] at h1
            by_cases hac : a < c
            · simp [charListLe, hac]
            · by_cases hca : c < a
              · simp [charListLe, hac, hca] at h2
              · simp only [charListLe, if_neg hac, if_neg hca] at h2 ⊢
                exact ih bs cs h1 h2

instance : IsTotal Room roomLe :=
  ⟨fun a b => charListLe_total a.room_number.data b.room_number.data⟩

instance : IsTrans Room roomLe := ⟨fun _ _ _ h1 h2 => charListLe_trans _ _ _ h1 h2⟩

lemma roomLe_refl (r : Room) : roomLe r r := charListLe_refl r.room_number.data

lemma find?_sorted_min {p : Room → Bool} {l : List Room} (hs : List.Sorted roomLe l) {r : Room}
    (hf : l.find? p = some r) : ∀ x ∈ l, p x = true → roomLe r x := by
  induction l with
  | nil => simp at hf
  | cons a t ih =>
    by_cases hpa : p a = true
    · rw [List.find?_cons_of_pos _ hpa] at hf
      injection hf with hra
      subst hra
      intro x hx hpx
      rcases List.mem_cons.mp hx with rfl | hxt
      · exact roomLe_refl _
      · exact (List.sorted_cons.mp hs).1 x hxt
    · rw [List.find?_cons_of_neg _ hpa] at hf
      intro x hx hpx
      rcases List.mem_cons.mp hx with rfl | hxt
      · exact absurd hpx hpa
      · exact ih (List.sorted_cons.mp hs).2 hf x hxt hpx

lemma mem_activeRoomsSorted {s : Store} {r : Room} :
    r ∈ activeRoomsSorted s ↔ r ∈ s.rooms ∧ r.status = RoomStatus.ACTIVE := by
  unfold activeRoomsSorted
  rw [(List.perm_insertionSort roomLe _).mem_iff, List.mem_filter]
  simp

/-- C4: `findFreeRoom` returns an ACTIVE room of the store with no active reservation
on the date that is least in `room_number` order among all such rooms (hence the
first in ascending order, and never OUT_OF_SERVICE); it returns `none` exactly when
every ACTIVE room is busy on the date; and it is deterministic in the store state. -/
theorem find_free_room_correct (s : Store) (d : Int) :
    (∀ r : Room, find_free_room_for_date s d = some r →
      r ∈ s.rooms ∧ r.status = RoomStatus.ACTIVE ∧ roomBusy s d r.id = false ∧
      ∀ rr ∈ s.rooms, rr.status = RoomStatus.ACTIVE → roomBusy s d rr.id = false →
        roomLe r rr) ∧
    (find_free_room_for_date s d = none ↔
      ∀ rr ∈ s.rooms, rr.status = RoomStatus.ACTIVE → roomBusy s d rr.id = true) ∧
    find_free_room_for_date s d = find_free_room_for_date s d := by
  unfold find_free_room_for_date
  refine ⟨?_, ⟨?_, ?_⟩, rfl⟩
  · intro r hr
    have hmem := List.mem_of_find?_eq_some hr
    have hact := mem_activeRoomsSorted.mp hmem
    have hfree := List.find?_some hr
    refine ⟨hact.1, hact.2, by simpa using hfree, ?_⟩
    intro rr hrr hrract hrrfree
    have hsorted : List.Sorted roomLe (activeRoomsSorted s) :=
      List.sorted_insertionSort roomLe _
    exact find?_sorted_min hsorted hr rr (mem_activeRoomsSorted.mpr ⟨hrr, hrract⟩)
      (by simp [hrrfree])
  · intro hnone rr hrr hrract
    have := List.find?_eq_none.mp hnone rr (mem_activeRoomsSorted.mpr ⟨hrr, hrract⟩)
    simpa using this
  · intro hall
    apply List.find?_eq_none.mpr
    intro x hx
    have hax := mem_activeRoomsSorted.mp hx
    simp [hall x hax.1 hax.2]

/-- Witness for C4: in the grid scenario store (room 101 busy on the scenario date)
the allocator's answer is room 102, and the theorem yields its properties. -/
theorem find_free_room_correct_witness :
    (⟨2, "102", RoomStatus.ACTIVE⟩ : Room) ∈ gridScenarioStore.rooms ∧
    (⟨2, "102", RoomStatus.ACTIVE⟩ : Room).status = RoomStatus.ACTIVE ∧
    roomBusy gridScenarioStore day20251012 2 = false := by
  have h := (find_free_room_correct gridScenarioStore day20251012).1
    ⟨2, "102", RoomStatus.ACTIVE⟩ (by decide)
  exact ⟨h.1, h.2.1, h.2.2.1⟩

/-! ## Race loss translated to the domain "no availability" error -/

/-- C2: when the allocator's snapshot offered a room but the commit-time store
already holds an active reservation for that room and date (the uniqueness
constraint fires), `createReservation` fails with the same
`BadRequest("No rooms available on this date")` produced when no room is free at
read time — not a storage error — and the commit-time store is returned unchanged
(the guest row is rolled back) with no notification sent. -/
theorem race_loss_translated (cu : Option Principal) (f l e p ds : String)
    (today : Int) (now : Nat) (sRead sCommit : Store) (stay_date : Int) (room : Room)
    (hrole : require_role cu [Role.STAFF, Role.SUPERUSER] = .ok ())
    (hparse : parseIsoDate ds = some stay_date)
    (hwin : is_date_within_booking_window today stay_date = true)
    (halloc : find_free_room_for_date sRead stay_date = some room)
    (hrace : hasActiveRes sCommit room.id stay_date = true) :
    api_guest_reservations_racy cu f l e p ds today now sRead sCommit =
      ⟨sCommit, [], .error (.badRequest "No rooms available on this date")⟩ ∧
    ∀ sOther : Store, find_free_room_for_date sOther stay_date = none →
      (api_guest_reservations cu f l e p ds today now sOther).result =
        .error (.badRequest "No rooms available on this date") := by
  constructor
  · have hrace1 : sCommit.reservations.any (fun r =>
        r.room_id == room.id && r.stay_date == stay_date && r.status.isActive) = true := hrace
    simp [api_guest_reservations_racy, hasActiveRes, hrole, hparse, hwin, halloc, hrace1]
  · intro sOther hnone
    simp [api_guest_reservations, api_guest_reservations_racy, hrole, hparse, hwin, hnone]

/-- Witness for C2: the allocator read the fresh seeded store and chose room 101,
but a concurrent winner has booked room 101 on that date by commit time. -/
theorem race_loss_translated_witness :
    api_guest_reservations_racy (some staffUser) "John" "Doe" "john@example.com" "1234567890"
      "2025-10-12" day20251012 0 initStore gridScenarioStore =
      ⟨gridScenarioStore, [], .error (.badRequest "No rooms available on this date")⟩ := by
  exact (race_loss_translated (some staffUser) "John" "Doe" "john@example.com" "1234567890"
    "2025-10-12" day20251012 0 initStore gridScenarioStore day20251012
    ⟨1, "101", RoomStatus.ACTIVE⟩ rfl (by decide) (by decide) (by decide) (by decide)).1

/-! ## Loading a reservation with its relations -/

lemma load_ok_inv {s : Store} {res_id : Nat} {loaded : LoadedRes}
    (h : load_reservation_with_relations s res_id = .ok loaded) :
    s.reservations.find? (fun r => r.id == res_id) = some loaded.reservation ∧
    loaded.reservation.id = res_id ∧
    (∃ g, s.guests.find? (fun g => g.id == loaded.reservation.guest_id) = some g ∧
      g.email = loaded.guest_email) ∧
    (∃ rm, s.rooms.find? (fun rm => rm.id == loaded.reservation.room_id) = some rm ∧
      rm.room_number = loaded.room_number) := by
  unfold load_reservation_with_relations at h
  cases hf : s.reservations.find? (fun r => r.id == res_id) with
  | none => rw [hf] at h; exact absurd h (by simp)
  | some r =>
    rw [hf] at h
    simp only [] at h
    cases hg : s.guests.find? (fun g => g.id == r.guest_id) with
    | none => rw [hg] at h; simp at h
    | some g =>
      rw [hg] at h
      cases hrm : s.rooms.find? (fun rm => rm.id == r.room_id) with
      | none => rw [hrm] at h; simp at h
      | some rm =>
        rw [hrm] at h
        simp only [Except.ok.injEq] at h
        subst h
        have hid := List.find?_some hf
        exact ⟨rfl, by simpa using hid, ⟨g, hg, rfl⟩, ⟨rm, hrm, rfl⟩⟩

lemma update_preserves_id (res_id : Nat) (st : ResStatus) (now : Nat) (r : Reservation) :
    (if r.id == res_id then { r with status := st, updated_at := now } else r).id = r.id := by
  by_cases h : (r.id == res_id) = true <;> simp [h]

lemma find?_id_map_update (l : List Reservation) (res_id n : Nat) (st : ResStatus) (now : Nat) :
    (l.map (fun r => if r.id == res_id then { r with status := st, updated_at := now }
      else r)).find? (fun r => r.id == n) =
    Option.map (fun r => if r.id == res_id then { r with status := st, updated_at := now }
      else r) (l.find? (fun r => r.id == n)) := by
  induction l with
  | nil => rfl
  | cons a t ih =>
    have hpa : ((if a.id == res_id then { a with status := st, updated_at := now }
        else a).id == n) = (a.id == n) := by
      rw [update_preserves_id]
    rw [List.map_cons, List.find?_cons, List.find?_cons, hpa]
    cases hb : (a.id == n) with
    | false => simpa using ih
    | true => rfl

lemma load_updateResStatus {s : Store} {res_id : Nat} {loaded : LoadedRes}
    (hld : load_reservation_with_relations s res_id = .ok loaded) (st : ResStatus) (now : Nat) :
    load_reservation_with_relations (updateResStatus s res_id st now) res_id =
      .ok ⟨{ loaded.reservation with status := st, updated_at := now },
        loaded.guest_email, loaded.room_number⟩ := by
  obtain ⟨resv, ge, rn⟩ := loaded
  obtain ⟨i, ri, gi, sd, stt, ca, ua⟩ := resv
  obtain ⟨hf, hid, ⟨g, hg, hge⟩, ⟨rm, hrm, hrn⟩⟩ := load_ok_inv hld
  have hf2 : s.reservations.find? (fun r => r.id == res_id) =
      some ⟨i, ri, gi, sd, stt, ca, ua⟩ := hf
  have hg2 : s.guests.find? (fun g2 => g2.id == gi) = some g := hg
  have hrm2 : s.rooms.find? (fun rm2 => rm2.id == ri) = some rm := hrm
  have hid2 : i = res_id := hid
  subst hid2
  have hge2 : g.email = ge := hge
  have hrn2 : rm.room_number = rn := hrn
  subst hge2
  subst hrn2
  simp only [load_reservation_with_relations, updateResStatus, find?_id_map_update, hf2,
    Option.map_some', beq_self_eq_true, if_true, hg2, hrm2]

/-! ## Cancellation contract -/

/-- C6: `cancel` fails with `NotFound` when no reservation has the id, fails with
the invalid-transition `BadRequest` when the reservation is not BOOKED/CHECKED_IN,
and otherwise reports success, rewrites the reservation's status to CANCELLED with
`updated_at = now` (leaving every other reservation unchanged), and sends the
cancellation notification. -/
theorem cancel_contract (cu : Option Principal) (res_id : Nat) (now : Nat) (s : Store)
    (hrole : require_role cu [Role.STAFF, Role.SUPERUSER] = .ok ()) :
    ((∀ r ∈ s.reservations, r.id ≠ res_id) →
      api_cancel cu res_id now s = ⟨s, [], .error (.notFound "Reservation not found")⟩) ∧
    (∀ loaded, load_reservation_with_relations s res_id = .ok loaded →
      loaded.reservation.status.isActive = false →
      api_cancel cu res_id now s =
        ⟨s, [], .error (.badRequest "Only active reservations can be cancelled")⟩) ∧
    (∀ loaded, load_reservation_with_relations s res_id = .ok loaded →
      loaded.reservation.status.isActive = true →
      (api_cancel cu res_id now s).result = .ok ⟨"Cancelled", "CANCELLED"⟩ ∧
      (api_cancel cu res_id now s).emails =
        [.cancelled loaded.guest_email loaded.room_number loaded.reservation.stay_date] ∧
      ∀ r ∈ s.reservations,
        (r.id = res_id → { r with status := ResStatus.CANCELLED, updated_at := now } ∈
          (api_cancel cu res_id now s).store.reservations) ∧
        (r.id ≠ res_id → r ∈ (api_cancel cu res_id now s).store.reservations)) := by
  refine ⟨?_, ?_, ?_⟩
  · intro hnores
    have hfind : s.reservations.find? (fun r => r.id == res_id) = none :=
      List.find?_eq_none.mpr (fun r hr => by simp [hnores r hr])
    have hload : load_reservation_with_relations s res_id =
        .error (.notFound "Reservation not found") := by
      unfold load_reservation_with_relations
      rw [hfind]
    simp [api_cancel, hrole, hload]
  · intro loaded hload hstat
    simp [api_cancel, hrole, hload, hstat]
  · intro loaded hload hstat
    have hcall : api_cancel cu res_id now s =
        ⟨updateResStatus s res_id .CANCELLED now,
          [.cancelled loaded.guest_email loaded.room_number loaded.reservation.stay_date],
          .ok ⟨"Cancelled", "CANCELLED"⟩⟩ := by
      simp [api_cancel, hrole, hload, hstat]
    rw [hcall]
    refine ⟨rfl, rfl, ?_⟩
    intro r hr
    constructor
    · intro hid
      exact List.mem_map.mpr ⟨r, hr, by simp [hid]⟩
    · intro hid
      exact List.mem_map.mpr ⟨r, hr, by simp [hid]⟩

/-- Witness for C6 on the lifecycle scenario store: unknown id 99, the CHECKED_OUT
reservation 2, and the BOOKED reservation 1. -/
theorem cancel_contract_witness :
    api_cancel (some staffUser) 99 5 lifecycleScenarioStore =
      ⟨lifecycleScenarioStore, [], .error (.notFound "Reservation not found")⟩ ∧
    api_cancel (some staffUser) 2 5 lifecycleScenarioStore =
      ⟨lifecycleScenarioStore, [],
        .error (.badRequest "Only active reservations can be cancelled")⟩ ∧
    (api_cancel (some staffUser) 1 5 lifecycleScenarioStore).result =
      .ok ⟨"Cancelled", "CANCELLED"⟩ ∧
    (api_cancel (some staffUser) 1 5 lifecycleScenarioStore).emails =
      [.cancelled "john@example.com" "101" day20251012] ∧
    (⟨1, 1, 1, day20251012, .CANCELLED, 0, 5⟩ : Reservation) ∈
      (api_cancel (some staffUser) 1 5 lifecycleScenarioStore).store.reservations := by
  have h99 := cancel_contract (some staffUser) 99 5 lifecycleScenarioStore rfl
  have h2 := cancel_contract (some staffUser) 2 5 lifecycleScenarioStore rfl
  have h1 := cancel_contract (some staffUser) 1 5 lifecycleScenarioStore rfl
  have hc1 := h1.2.2 ⟨⟨1, 1, 1, day20251012, .BOOKED, 0, 0⟩, "john@example.com", "101"⟩ rfl rfl
  refine ⟨h99.1 (by decide),
    h2.2.1 ⟨⟨2, 2, 1, day20251012, .CHECKED_OUT, 0, 0⟩, "john@example.com", "102"⟩ rfl rfl,
    hc1.1, hc1.2.1, ?_⟩
  exact (hc1.2.2 ⟨1, 1, 1, day20251012, .BOOKED, 0, 0⟩ (by simp [lifecycleScenarioStore])).1 rfl

/-! ## Check-in / check-out state table -/

/-- C5: check-in succeeds exactly on a BOOKED reservation and moves it to
CHECKED_IN; check-out succeeds exactly on a CHECKED_IN reservation and moves it to
CHECKED_OUT; check-out on a still-BOOKED reservation fails with the
invalid-transition error, and a second check-in on the same reservation fails. -/
theorem checkin_checkout_state_table (cu : Option Principal) (res_id : Nat) (now : Nat)
    (s : Store) (loaded : LoadedRes)
    (hrole : require_role cu [Role.STAFF, Role.SUPERUSER] = .ok ())
    (hload : load_reservation_with_relations s res_id = .ok loaded) :
    (loaded.reservation.status = .BOOKED →
      api_check_in cu res_id now s =
        ⟨updateResStatus s res_id .CHECKED_IN now, [], .ok ⟨"Checked in", "CHECKED_IN"⟩⟩) ∧
    (loaded.reservation.status ≠ .BOOKED →
      api_check_in cu res_id now s =
        ⟨s, [], .error (.badRequest "Reservation not in a valid state for this operation")⟩) ∧
    (loaded.reservation.status = .CHECKED_IN →
      api_check_out cu res_id now s =
        ⟨updateResStatus s res_id .CHECKED_OUT now, [], .ok ⟨"Checked out", "CHECKED_OUT"⟩⟩) ∧
    (loaded.reservation.status ≠ .CHECKED_IN →
      api_check_out cu res_id now s =
        ⟨s, [], .error (.badRequest "Reservation not in a valid state for this operation")⟩) ∧
    (loaded.reservation.status = .BOOKED → ∀ now2 : Nat,
      (api_check_in cu res_id now2 (api_check_in cu res_id now s).store).result =
        .error (.badRequest "Reservation not in a valid state for this operation")) := by
  refine ⟨?_, ?_, ?_, ?_, ?_⟩
  · intro hb
    simp [api_check_in, hrole, hload, hb]
  · intro hb
    simp [api_check_in, hrole, hload, hb]
  · intro hb
    simp [api_check_out, hrole, hload, hb]
  · intro hb
    simp [api_check_out, hrole, hload, hb]
  · intro hb now2
    have h1 : api_check_in cu res_id now s =
        ⟨updateResStatus s res_id .CHECKED_IN now, [], .ok ⟨"Checked in", "CHECKED_IN"⟩⟩ := by
      simp [api_check_in, hrole, hload, hb]
    rw [h1]
    have hld2 := load_updateResStatus hload ResStatus.CHECKED_IN now
    simp [api_check_in, hrole, hld2]

/-- Witness for C5 on the lifecycle scenario store: reservation 1 is BOOKED and
reservation 3 is CHECKED_IN. -/
theorem checkin_checkout_state_table_witness :
    api_check_in (some staffUser) 1 5 lifecycleScenarioStore =
      ⟨updateResStatus lifecycleScenarioStore 1 .CHECKED_IN 5, [],
        .ok ⟨"Checked in", "CHECKED_IN"⟩⟩ ∧
    api_check_out (some staffUser) 1 5 lifecycleScenarioStore =
      ⟨lifecycleScenarioStore, [],
        .error (.badRequest "Reservation not in a valid state for this operation")⟩ ∧
    api_check_out (some staffUser) 3 5 lifecycleScenarioStore =
      ⟨updateResStatus lifecycleScenarioStore 3 .CHECKED_OUT 5, [],
        .ok ⟨"Checked out", "CHECKED_OUT"⟩⟩ ∧
    (api_check_in (some staffUser) 1 7
        (api_check_in (some staffUser) 1 5 lifecycleScenarioStore).store).result =
      .error (.badRequest "Reservation not in a valid state for this operation") := by
  have h1 := checkin_checkout_state_table (some staffUser) 1 5 lifecycleScenarioStore
    ⟨⟨1, 1, 1, day20251012, .BOOKED, 0, 0⟩, "john@example.com", "101"⟩ rfl rfl
  have h3 := checkin_checkout_state_table (some staffUser) 3 5 lifecycleScenarioStore
    ⟨⟨3, 3, 1, day20251012, .CHECKED_IN, 0, 0⟩, "john@example.com", "103"⟩ rfl rfl
  exact ⟨h1.1 rfl, h1.2.2.2.1 (by decide), h3.2.2.1 rfl, h1.2.2.2.2 rfl 7⟩

/-! ## Input validation in `createReservation` (corrected) -/

/-- C7 counterexample: a stay-date string that does not parse surfaces as an
unhandled `ValueError` fault, not as the typed `BadRequest` Validation failure; and
a request whose guest fields are all empty is not rejected — it succeeds and
modifies the store. -/
theorem create_validation_counterexample :
    (api_guest_reservations (some staffUser) "John" "Doe" "john@example.com" "1234567890"
      "not-a-date" day20251012 0 initStore).result =
      .error (.fault "ValueError: invalid isoformat string") ∧
    (api_guest_reservations (some staffUser) "" "" "" "" "2025-10-12" day20251012 0
      initStore).result = .ok ⟨1, "101", day20251012, "BOOKED"⟩ ∧
    (api_guest_reservations (some staffUser) "" "" "" "" "2025-10-12" day20251012 0
      initStore).store ≠ initStore := by
  refine ⟨rfl, rfl, by decide⟩

/-- C7 amended: a non-parsing stay-date string makes `createReservation` raise an
uncaught `ValueError` — an unhandled fault, not a typed Validation failure — with
the store unchanged; and the guest fields are never validated: the call's outcome
is entirely independent of their values, so empty required fields do not fail. -/
theorem create_validation_amended (cu : Option Principal) (f l e p ds : String)
    (today : Int) (now : Nat) (s : Store) :
    (require_role cu [Role.STAFF, Role.SUPERUSER] = .ok () → parseIsoDate ds = none →
      api_guest_reservations cu f l e p ds today now s =
        ⟨s, [], .error (.fault "ValueError: invalid isoformat string")⟩) ∧
    ∀ f2 l2 e2 p2 : String,
      (api_guest_reservations cu f2 l2 e2 p2 ds today now s).result =
        (api_guest_reservations cu f l e p ds today now s).result := by
  constructor
  · intro hrole hparse
    simp [api_guest_reservations, api_guest_reservations_racy, hrole, hparse]
  · intro f2 l2 e2 p2
    unfold api_guest_reservations api_guest_reservations_racy
    cases require_role cu [Role.STAFF, Role.SUPERUSER] with
    | error err => rfl
    | ok u =>
      simp only []
      cases parseIsoDate ds with
      | none => rfl
      | some stay_date =>
        simp only []
        by_cases hw : (!is_date_within_booking_window today stay_date) = true
        · rw [if_pos hw, if_pos hw]
        · rw [if_neg hw, if_neg hw]
          cases find_free_room_for_date s stay_date with
          | none => rfl
          | some room =>
            simp only []
            have hc1 : hasActiveRes { s with
                guests := s.guests ++ [⟨s.next_guest_id, f2, l2, e2, p2, now⟩],
                next_guest_id := s.next_guest_id + 1 } room.id stay_date =
                hasActiveRes s room.id stay_date := rfl
            have hc2 : hasActiveRes { s with
                guests := s.guests ++ [⟨s.next_guest_id, f, l, e, p, now⟩],
                next_guest_id := s.next_guest_id + 1 } room.id stay_date =
                hasActiveRes s room.id stay_date := rfl
            rw [hc1, hc2]
            by_cases hA : hasActiveRes s room.id stay_date = true
            · rw [if_pos hA, if_pos hA]
            · rw [if_neg hA, if_neg hA]

/-- Witness for C7's amended claim at concrete inputs. -/
theorem create_validation_amended_witness :
    api_guest_reservations (some staffUser) "John" "Doe" "john@example.com" "1234567890"
      "not-a-date" day20251012 0 initStore =
      ⟨initStore, [], .error (.fault "ValueError: invalid isoformat string")⟩ ∧
    (api_guest_reservations (some staffUser) "" "" "" "" "2025-10-12" day20251012 0
      initStore).result =
    (api_guest_reservations (some staffUser) "John" "Doe" "john@example.com" "1234567890"
      "2025-10-12" day20251012 0 initStore).result := by
  have h := create_validation_amended (some staffUser) "John" "Doe" "john@example.com"
    "1234567890" "not-a-date" day20251012 0 initStore
  have h2 := create_validation_amended (some staffUser) "John" "Doe" "john@example.com"
    "1234567890" "2025-10-12" day20251012 0 initStore
  exact ⟨h.1 rfl rfl, h2.2 "" "" "" ""⟩

/-! ## Availability grid correctness -/

lemma foldl_cons_eq_reverse_map {α β : Type} (f : α → β) :
    ∀ (l : List α) (acc : List β),
      l.foldl (fun m r => f r :: m) acc = (l.map f).reverse ++ acc := by
  intro l
  induction l with
  | nil => intro acc; rfl
  | cons a t ih =>
    intro acc
    simp [ih, List.append_assoc]

lemma statusMap_eq (s : Store) (today : Int) :
    statusMap s today = ((s.reservations.filter (fun r =>
      today ≤ r.stay_date && r.stay_date ≤ today + (MAX_BOOKING_WINDOW_DAYS - 1) &&
      r.status.isActive)).map (fun r => ((r.room_id, r.stay_date), r.status.text))).reverse := by
  unfold statusMap
  rw [foldl_cons_eq_reverse_map]
  simp

lemma active_key_unique (l : List Reservation) (h : l.Pairwise distinctActiveKey) :
    ∀ a ∈ l, ∀ b ∈ l, a.status.isActive = true → b.status.isActive = true →
      a.room_id = b.room_id → a.stay_date = b.stay_date → a = b := by
  induction l with
  | nil => intro a ha; simp at ha
  | cons c t ih =>
    intro a ha b hb haact hbact hroom hdate
    have hc := List.pairwise_cons.mp h
    rcases List.mem_cons.mp ha with rfl | hat
    · rcases List.mem_cons.mp hb with rfl | hbt
      · rfl
      · exact absurd ⟨hroom, hdate⟩ (hc.1 b hbt haact hbact)
    · rcases List.mem_cons.mp hb with rfl | hbt
      · exact absurd ⟨hroom.symm, hdate.symm⟩ (hc.1 a hat hbact haact)
      · exact ih hc.2 a hat b hbt haact hbact hroom hdate

lemma statusMapGet_eq_FREE {s : Store} {today d : Int} {rid : Nat}
    (hnone : ∀ r ∈ s.reservations, r.status.isActive = true →
      ¬(r.room_id = rid ∧ r.stay_date = d)) :
    statusMapGet (statusMap s today) (rid, d) = "FREE" := by
  unfold statusMapGet
  have hfind : (statusMap s today).find? (fun kv => kv.1 == (rid, d)) = none := by
    apply List.find?_eq_none.mpr
    intro kv hkv
    rw [statusMap_eq, List.mem_reverse, List.mem_map] at hkv
    obtain ⟨r, hrmem, hkveq⟩ := hkv
    rw [List.mem_filter] at hrmem
    obtain ⟨hrs, hcond⟩ := hrmem
    have hract : r.status.isActive = true := by
      simp only [Bool.and_eq_true] at hcond
      exact hcond.2
    subst hkveq
    simp only [beq_iff_eq, Prod.mk.injEq, not_and, decide_eq_true_eq]
    intro hre hde
    exact hnone r hrs hract ⟨hre, hde⟩
  rw [hfind]

lemma statusMapGet_eq_status {s : Store} {today d : Int} {rid : Nat} {r0 : Reservation}
    (hInv : noDoubleBooking s)
    (hmem : r0 ∈ s.reservations) (hact : r0.status.isActive = true)
    (hroom : r0.room_id = rid) (hdate : r0.stay_date = d)
    (hwin1 : today ≤ d) (hwin2 : d ≤ today + (MAX_BOOKING_WINDOW_DAYS - 1)) :
    statusMapGet (statusMap s today) (rid, d) = r0.status.text := by
  unfold statusMapGet
  have hr0filter : r0 ∈ s.reservations.filter (fun r =>
      today ≤ r.stay_date && r.stay_date ≤ today + (MAX_BOOKING_WINDOW_DAYS - 1) &&
      r.status.isActive) := by
    rw [List.mem_filter]
    refine ⟨hmem, ?_⟩
    simp only [Bool.and_eq_true, decide_eq_true_eq]
    exact ⟨⟨by rw [hdate]; exact hwin1, by rw [hdate]; exact hwin2⟩, hact⟩
  cases hfind : (statusMap s today).find? (fun kv => kv.1 == (rid, d)) with
  | none =>
    exfalso
    have hmem2 : ((r0.room_id, r0.stay_date), r0.status.text) ∈ statusMap s today := by
      rw [statusMap_eq, List.mem_reverse, List.mem_map]
      exact ⟨r0, hr0filter, rfl⟩
    have := List.find?_eq_none.mp hfind _ hmem2
    simp only [beq_iff_eq, Prod.mk.injEq, not_and, decide_eq_true_eq] at this
    simp [hroom, hdate] at this
  | some kv =>
    have hkvmem := List.mem_of_find?_eq_some hfind
    have hkvp := List.find?_some hfind
    rw [statusMap_eq, List.mem_reverse, List.mem_map] at hkvmem
    obtain ⟨r1, hr1mem, hkveq⟩ := hkvmem
    rw [List.mem_filter] at hr1mem
    obtain ⟨hr1s, hr1cond⟩ := hr1mem
    have hr1act : r1.status.isActive = true := by
      simp only [Bool.and_eq_true] at hr1cond
      exact hr1cond.2
    subst hkveq
    simp only [beq_iff_eq, Prod.mk.injEq, decide_eq_true_eq] at hkvp
    have hsame : r1 = r0 := active_key_unique s.reservations hInv r1 hr1s r0 hmem hr1act hact
      (by rw [hkvp.1, hroom]) (by rw [hkvp.2, hdate])
    rw [hsame]

/-- C8: `buildGrid` returns the booking window's dates in ascending order, the
ACTIVE rooms sorted by `room_number`, and a matrix whose cell for room `r` and
date `d` is the active reservation's status when one exists and `"FREE"`
otherwise; in particular the mandated two-room scenario yields row
`["BOOKED","FREE","FREE","FREE","FREE"]` for room 101 and all-FREE for room 102. -/
theorem build_grid_correct (s : Store) (today : Int) (hInv : noDoubleBooking s) :
    (build_availability_grid s today).2.1 =
      [today, today + 1, today + 2, today + 3, today + 4] ∧
    (build_availability_grid s today).1 = activeRoomsSorted s ∧
    List.Sorted roomLe (build_availability_grid s today).1 ∧
    (∀ r : Room, r ∈ (build_availability_grid s today).1 ↔
      r ∈ s.rooms ∧ r.status = RoomStatus.ACTIVE) ∧
    (∀ (i j : Nat) (room : Room) (d : Int),
      ((build_availability_grid s today).1)[i]? = some room →
      ((build_availability_grid s today).2.1)[j]? = some d →
      ∃ cell : String,
        ∃ row ∈ ((build_availability_grid s today).2.2)[i]?, row[j]? = some cell ∧
        ((∀ r ∈ s.reservations, r.status.isActive = true →
            ¬(r.room_id = room.id ∧ r.stay_date = d)) → cell = "FREE") ∧
        (∀ r ∈ s.reservations, r.status.isActive = true → r.room_id = room.id →
            r.stay_date = d → cell = r.status.text)) ∧
    build_availability_grid gridScenarioStore day20251012 =
      ([⟨1, "101", .ACTIVE⟩, ⟨2, "102", .ACTIVE⟩],
       [day20251012, day20251012 + 1, day20251012 + 2, day20251012 + 3, day20251012 + 4],
       [["BOOKED", "FREE", "FREE", "FREE", "FREE"],
        ["FREE", "FREE", "FREE", "FREE", "FREE"]]) := by
  have hdates : (build_availability_grid s today).2.1 =
      [today, today + 1, today + 2, today + 3, today + 4] := by
    show (List.range MAX_BOOKING_WINDOW_DAYS.toNat).map (fun o => today + (o : Nat)) = _
    have hr5 : List.range MAX_BOOKING_WINDOW_DAYS.toNat = [0, 1, 2, 3, 4] := rfl
    rw [hr5]
    simp only [List.map_cons, List.map_nil]
    norm_num
  refine ⟨hdates, rfl, List.sorted_insertionSort roomLe _, fun r => mem_activeRoomsSorted, ?_, by decide⟩
  intro i j room d hri hdj
  have hgrid : ((build_availability_grid s today).2.2)[i]? =
      Option.map (fun rm => ((build_availability_grid s today).2.1).map
        (fun date => statusMapGet (statusMap s today) (rm.id, date)))
      ((build_availability_grid s today).1)[i]? := by
    exact List.getElem?_map _ _ _
  rw [hri] at hgrid
  have hrow : (((build_availability_grid s today).2.1).map
      (fun date => statusMapGet (statusMap s today) (room.id, date)))[j]? =
      Option.map (fun date => statusMapGet (statusMap s today) (room.id, date))
        ((build_availability_grid s today).2.1)[j]? := List.getElem?_map _ _ _
  rw [hdj] at hrow
  have hdwin : today ≤ d ∧ d ≤ today + (MAX_BOOKING_WINDOW_DAYS - 1) := by
    have hdmem : d ∈ (build_availability_grid s today).2.1 := List.getElem?_mem hdj
    rw [hdates] at hdmem
    simp only [List.mem_cons, List.not_mem_nil, or_false] at hdmem
    unfold MAX_BOOKING_WINDOW_DAYS
    rcases hdmem with rfl | rfl | rfl | rfl | rfl <;> constructor <;> omega
  refine ⟨statusMapGet (statusMap s today) (room.id, d),
    ((build_availability_grid s today).2.1).map
      (fun date => statusMapGet (statusMap s today) (room.id, date)), ?_, ?_, ?_, ?_⟩
  · rw [hgrid]
    rfl
  · rw [hrow]
    rfl
  · intro hno
    exact statusMapGet_eq_FREE hno
  · intro r hrmem hract hroom hdate
    exact (statusMapGet_eq_status hInv hrmem hract hroom hdate hdwin.1 hdwin.2).trans rfl

/-- Witness for C8: the theorem applied at the grid scenario store. -/
theorem build_grid_correct_witness :
    build_availability_grid gridScenarioStore day20251012 =
      ([⟨1, "101", .ACTIVE⟩, ⟨2, "102", .ACTIVE⟩],
       [day20251012, day20251012 + 1, day20251012 + 2, day20251012 + 3, day20251012 + 4],
       [["BOOKED", "FREE", "FREE", "FREE", "FREE"],
        ["FREE", "FREE", "FREE", "FREE", "FREE"]]) ∧
    (build_availability_grid gridScenarioStore day20251012).2.1 =
      [day20251012, day20251012 + 1, day20251012 + 2, day20251012 + 3, day20251012 + 4] := by
  have h := build_grid_correct gridScenarioStore day20251012
    (by simp [noDoubleBooking, gridScenarioStore])
  exact ⟨h.2.2.2.2.2, h.1⟩

/-! ## The uniqueness invariant under all operation sequences -/

lemma mem_id_unique (l : List Reservation) (h : l.Pairwise (fun r1 r2 => r1.id ≠ r2.id)) :
    ∀ a ∈ l, ∀ b ∈ l, a.id = b.id → a = b := by
  induction l with
  | nil => intro a ha; simp at ha
  | cons c t ih =>
    intro a ha b hb heq
    have hc := List.pairwise_cons.mp h
    rcases List.mem_cons.mp ha with rfl | hat
    · rcases List.mem_cons.mp hb with rfl | hbt
      · rfl
      · exact absurd heq (hc.1 b hbt)
    · rcases List.mem_cons.mp hb with rfl | hbt
      · exact absurd heq.symm (hc.1 a hat)
      · exact ih hc.2 a hat b hbt heq

lemma update_preserves_room (res_id : Nat) (st : ResStatus) (now : Nat) (r : Reservation) :
    (if r.id == res_id then { r with status := st, updated_at := now } else r).room_id =
      r.room_id := by
  by_cases h : (r.id == res_id) = true <;> simp [h]

lemma update_preserves_date (res_id : Nat) (st : ResStatus) (now : Nat) (r : Reservation) :
    (if r.id == res_id then { r with status := st, updated_at := now } else r).stay_date =
      r.stay_date := by
  by_cases h : (r.id == res_id) = true <;> simp [h]

lemma update_active_cases (res_id : Nat) (st : ResStatus) (now : Nat) (r : Reservation) :
    (if r.id == res_id then { r with status := st, updated_at := now }
      else r).status.isActive = true →
    (r.id = res_id ∧ st.isActive = true) ∨ (r.id ≠ res_id ∧ r.status.isActive = true) := by
  by_cases h : (r.id == res_id) = true
  · intro h2
    left
    simp only [h, if_true] at h2
    exact ⟨by simpa using h, h2⟩
  · intro h2
    right
    simp only [h, if_false] at h2
    exact ⟨by simpa using h, h2⟩

lemma storeInv_updateResStatus {s : Store} {res_id : Nat} {st : ResStatus} {now : Nat}
    (hInv : StoreInv s)
    (hact : st.isActive = true →
      ∀ a ∈ s.reservations, a.id = res_id → a.status.isActive = true) :
    StoreInv (updateResStatus s res_id st now) := by
  obtain ⟨hkey, hids, hbound⟩ := hInv
  have hres : (updateResStatus s res_id st now).reservations =
      s.reservations.map (fun r => if r.id == res_id then
        { r with status := st, updated_at := now } else r) := rfl
  refine ⟨?_, ?_, ?_⟩
  · unfold noDoubleBooking
    rw [hres, List.pairwise_map]
    refine List.Pairwise.imp_of_mem ?_ (hkey.and hids)
    intro a b hamem hbmem hab hfa hfb
    rw [update_preserves_room, update_preserves_room, update_preserves_date,
      update_preserves_date]
    rcases update_active_cases res_id st now a hfa with ⟨haid, hstact⟩ | ⟨_, haact⟩
    · have haact : a.status.isActive = true := hact hstact a hamem haid
      rcases update_active_cases res_id st now b hfb with ⟨hbid, _⟩ | ⟨_, hbact⟩
      · exact absurd (haid.trans hbid.symm) hab.2
      · exact hab.1 haact hbact
    · rcases update_active_cases res_id st now b hfb with ⟨hbid, hstact⟩ | ⟨_, hbact⟩
      · have hbact : b.status.isActive = true := hact hstact b hbmem hbid
        exact hab.1 haact hbact
      · exact hab.1 haact hbact
  · rw [hres, List.pairwise_map]
    refine hids.imp ?_
    intro a b hab
    rw [update_preserves_id, update_preserves_id]
    exact hab
  · intro r hr
    rw [hres] at hr
    obtain ⟨a, ha, rfl⟩ := List.mem_map.mp hr
    rw [update_preserves_id]
    exact hbound a ha

lemma cancel_store_inv {cu : Option Principal} {res_id now : Nat} {s : Store}
    (hInv : StoreInv s) : StoreInv (api_cancel cu res_id now s).store := by
  unfold api_cancel
  cases require_role cu [Role.STAFF, Role.SUPERUSER] with
  | error e => exact hInv
  | ok u =>
    cases hld : load_reservation_with_relations s res_id with
    | error e => exact hInv
    | ok loaded =>
      simp only []
      by_cases hst : (!loaded.reservation.status.isActive) = true
      · rw [if_pos hst]
        exact hInv
      · rw [if_neg hst]
        apply storeInv_updateResStatus hInv
        intro hstact
        simp [ResStatus.isActive] at hstact


lemma checkout_store_inv {cu : Option Principal} {res_id now : Nat} {s : Store}
    (hInv : StoreInv s) : StoreInv (api_check_out cu res_id now s).store := by
  unfold api_check_out
  cases require_role cu [Role.STAFF, Role.SUPERUSER] with
  | error e => exact hInv
  | ok u =>
    cases hld : load_reservation_with_relations s res_id with
    | error e => exact hInv
    | ok loaded =>
      simp only []
      by_cases hg : loaded.reservation.status = ResStatus.CHECKED_IN
      · rw [if_neg (by simp [hg])]
        apply storeInv_updateResStatus hInv
        intro hstact
        simp [ResStatus.isActive] at hstact
      · rw [if_pos hg]
        exact hInv

lemma checkin_store_inv {cu : Option Principal} {res_id now : Nat} {s : Store}
    (hInv : StoreInv s) : StoreInv (api_check_in cu res_id now s).store := by
  unfold api_check_in
  cases require_role cu [Role.STAFF, Role.SUPERUSER] with
  | error e => exact hInv
  | ok u =>
    cases hld : load_reservation_with_relations s res_id with
    | error e => exact hInv
    | ok loaded =>
      simp only []
      by_cases hg : loaded.reservation.status = ResStatus.BOOKED
      · rw [if_neg (by simp [hg])]
        apply storeInv_updateResStatus hInv
        intro _ a hamem haid
        obtain ⟨hf, hid, _, _⟩ := load_ok_inv hld
        have hlmem : loaded.reservation ∈ s.reservations := List.mem_of_find?_eq_some hf
        have haeq : a = loaded.reservation :=
          mem_id_unique s.reservations hInv.2.1 a hamem loaded.reservation hlmem
            (by rw [haid, hid])
        rw [haeq, hg]
        rfl
      · rw [if_pos hg]
        exact hInv

lemma create_store_inv {cu : Option Principal} {f l e p ds : String} {today : Int}
    {now : Nat} {s : Store} (hInv : StoreInv s) :
    StoreInv (api_guest_reservations cu f l e p ds today now s).store := by
  unfold api_guest_reservations api_guest_reservations_racy
  cases require_role cu [Role.STAFF, Role.SUPERUSER] with
  | error e2 => exact hInv
  | ok u =>
    cases parseIsoDate ds with
    | none => exact hInv
    | some stay_date =>
      simp only []
      by_cases hw : (!is_date_within_booking_window today stay_date) = true
      · rw [if_pos hw]
        exact hInv
      · rw [if_neg hw]
        cases find_free_room_for_date s stay_date with
        | none => exact hInv
        | some room =>
          simp only []
          by_cases hA : hasActiveRes { s with
              guests := s.guests ++ [⟨s.next_guest_id, f, l, e, p, now⟩],
              next_guest_id := s.next_guest_id + 1 } room.id stay_date = true
          · rw [if_pos hA]
            exact hInv
          · rw [if_neg hA]
            obtain ⟨hkey, hids, hbound⟩ := hInv
            have hA2 : s.reservations.any (fun r =>
                r.room_id == room.id && r.stay_date == stay_date && r.status.isActive) =
                false := by
              cases h2 : s.reservations.any (fun r =>
                  r.room_id == room.id && r.stay_date == stay_date && r.status.isActive) with
              | false => rfl
              | true => exact absurd h2 hA
            have hfreeRoom := List.any_eq_false.mp hA2
            refine ⟨?_, ?_, ?_⟩
            · unfold noDoubleBooking
              rw [List.pairwise_append]
              refine ⟨hkey, List.pairwise_singleton _ _, ?_⟩
              intro a ha b hb
              rw [List.mem_singleton] at hb
              subst hb
              intro haact hbact hcol
              have := hfreeRoom a ha
              simp only [Bool.and_eq_true, beq_iff_eq] at this
              exact this ⟨⟨hcol.1, hcol.2⟩, haact⟩
            · rw [List.pairwise_append]
              refine ⟨hids, List.pairwise_singleton _ _, ?_⟩
              intro a ha b hb
              rw [List.mem_singleton] at hb
              subst hb
              exact Nat.ne_of_lt (hbound a ha)
            · intro r hr
              rw [List.mem_append, List.mem_singleton] at hr
              rcases hr with hr | rfl
              · exact Nat.lt_succ_of_lt (hbound r hr)
              · exact Nat.lt_succ_self _

lemma storeInv_step {s : Store} (hInv : StoreInv s) (op : Op) : StoreInv (step s op) := by
  cases op with
  | create cu f l e p ds today now => exact create_store_inv hInv
  | cancel cu res_id now => exact cancel_store_inv hInv
  | checkin cu res_id now => exact checkin_store_inv hInv
  | checkout cu res_id now => exact checkout_store_inv hInv

lemma storeInv_run {s : Store} (hInv : StoreInv s) (ops : List Op) : StoreInv (run s ops) := by
  induction ops generalizing s with
  | nil => exact hInv
  | cons op ops ih => exact ih (storeInv_step hInv op)

lemma storeInv_initStore : StoreInv initStore := by
  refine ⟨List.Pairwise.nil, List.Pairwise.nil, ?_⟩
  intro r hr
  simp [initStore] at hr

/-- C1: in every state reachable from the initialized store by any sequence of
core operations (create, cancel, check-in, check-out) by any callers, no two
reservations with status BOOKED or CHECKED_IN share a `(room_id, stay_date)` pair. -/
theorem reachable_states_no_double_booking (ops : List Op) :
    noDoubleBooking (run initStore ops) :=
  (storeInv_run storeInv_initStore ops).1

end PMS
